import Mathlib

/-!
Verification of the OpenBSD system-accounting record decoder
(`plaso/parsers/system_accounting.py`).

The development shallowly embeds the decoder: machine integers become `Nat`
(with explicit masking where overflow matters), the Python float results of
the `comp_t` conversion become `ℚ` (every value produced is an integer number
of clock ticks divided by 64, exactly representable), byte strings become
`List Nat` with each element below 256, and the per-record decode that can
raise becomes `Except`.
-/

namespace SystemAccounting

/-! ## Constants of the parser class -/

/-- `_MINIMUM_FILE_SIZE = 64`: one accounting structure is 64 bytes.
Declared by the source but never consulted in `ParseFileObject`. -/
def MINIMUM_FILE_SIZE : Nat := 64

/-- `_AHZ = 64`: granularity of the `comp_t` encoding (clock ticks per second). -/
def AHZ : Nat := 64

/-- `_SECSPERHOUR = 3600`. -/
def SECSPERHOUR : Nat := 3600

/-- `_SECSPERMIN = 60`. -/
def SECSPERMIN : Nat := 60

/-! ## Filename gate

`_FILENAME_FORMAT = re.compile(r'acct(\..*)?')`, used as
`_FILENAME_FORMAT.match(filename)`.  `re.match` anchors at the start of the
string only: it succeeds when the pattern matches some prefix of the input.
After the literal `acct`, the whole group `(\..*)?` is optional, so a match
exists exactly when the four characters `acct` are a prefix of the filename. -/

/-- Literal prefix match on character lists. -/
def matchLiteral : List Char → List Char → Bool
  | [], _ => true
  | _ :: _, [] => false
  | c :: cs, d :: ds => c == d && matchLiteral cs ds

/-- Embedding of `_FILENAME_FORMAT.match(filename)` returning whether a match
object is produced (truthy). -/
def regexMatch (filename : String) : Bool :=
  matchLiteral "acct".data filename.data

/-! ## The comp_t converter `_Convert_comp_t`

```
converted_t = comp_t & 0x1fff
comp_t >>= 13
while comp_t:
    comp_t -= 1
    converted_t <<= 3
converted_t = converted_t / self._AHZ
```
The while loop decrements the shifted-down exponent and shifts the mantissa
left by 3 each iteration; `compShiftLoop` is that loop, recursion on the
counter. The final `/` is Python true division; the result is modelled in
`ℚ`. -/

/-- The while loop of `_Convert_comp_t`: counter and accumulated mantissa. -/
def compShiftLoop : Nat → Nat → Nat
  | 0, m => m
  | e + 1, m => compShiftLoop e (m <<< 3)

/-- Embedding of `_Convert_comp_t`. -/
def Convert_comp_t (comp_t : Nat) : ℚ :=
  ((compShiftLoop (comp_t >>> 13) (comp_t &&& 0x1fff) : Nat) : ℚ) / (AHZ : ℚ)

/-- The same while loop instrumented with explicit fuel: `none` means the
fuel was exhausted before the loop condition became false. Used to state
termination of the source loop within a bounded number of iterations. -/
def compLoopFuel : Nat → Nat → Nat → Option Nat
  | 0, c, m => if c = 0 then some m else none
  | f + 1, c, m => if c = 0 then some m else compLoopFuel f (c - 1) (m <<< 3)

/-! ## Python float formatting helpers

`_TimeConverstion` renders with the f-string
`f"{hours:02.0f}:{minutes:02.0f}:{seconds:05.2f}"`.  The `.0f` / `.2f`
conversions round the value to 0 resp. 2 decimal places using round half to
even, then left-pad with zeros to the requested minimum width.  The helpers
below implement exactly that for the non-negative values the parser feeds
in. -/

/-- Round half to even of a rational, as performed by `float.__format__`
(the argument is an exactly-representable value in our embedding). -/
def rhe (q : ℚ) : Int :=
  let f : Int := q.floor
  let r : ℚ := q - (f : ℚ)
  if r < 1 / 2 then f
  else if 1 / 2 < r then f + 1
  else if f % 2 = 0 then f else f + 1

/-- `math.fmod x y` for the non-negative `x` and positive `y` used by the
parser: `x - y * floor (x / y)`. -/
def fmod (x y : ℚ) : ℚ := x - y * (((x / y).floor : Int) : ℚ)

/-- The decimal digit character of `n % 10`. -/
def digitChar (n : Nat) : Char := Char.ofNat (48 + n % 10)

/-- Decimal digits of a positive number, most significant first
(structural recursion with fuel; fuel `n` is enough since the
argument shrinks by a factor of ten each step). -/
def natDigsAux : Nat → Nat → List Char
  | 0, _ => []
  | _ + 1, 0 => []
  | fuel + 1, n + 1 => natDigsAux fuel ((n + 1) / 10) ++ [digitChar (n + 1)]

/-- Decimal digits of `n`, at least one digit. -/
def natDigs (n : Nat) : List Char :=
  if n = 0 then ['0'] else natDigsAux n n

/-- Left-pad a character list with `c` to length `k`. -/
def leftPad (c : Char) (k : Nat) (l : List Char) : List Char :=
  List.replicate (k - l.length) c ++ l

/-- Python `f"{x:02.0f}"` for non-negative `x`. -/
def fmt02_0f (x : ℚ) : String :=
  String.mk (leftPad '0' 2 (natDigs (rhe x).toNat))

/-- Python `f"{x:05.2f}"` for non-negative `x`: two decimals, whole string
zero-padded to width 5. -/
def fmt05_2f (x : ℚ) : String :=
  let n : Nat := (rhe (100 * x)).toNat
  String.mk (leftPad '0' 5 (natDigs (n / 100) ++ ['.'] ++ [digitChar (n / 10), digitChar n]))

/-- Embedding of `_TimeConverstion`:
```
hours = total_secs / self._SECSPERHOUR
minutes = math.fmod(total_secs, self._SECSPERHOUR) / self._SECSPERMIN
seconds = math.fmod(total_secs, self._SECSPERMIN)
time_string = f"{hours:02.0f}:{minutes:02.0f}:{seconds:05.2f}"
``` -/
def TimeConverstion (total_secs : ℚ) : String :=
  fmt02_0f (total_secs / (SECSPERHOUR : ℚ)) ++ ":" ++
    fmt02_0f (fmod total_secs (SECSPERHOUR : ℚ) / (SECSPERMIN : ℚ)) ++ ":" ++
    fmt05_2f (fmod total_secs (SECSPERMIN : ℚ))

/-! ## Flag translator `_ParseStructFlags`

Iterates `_ACCOUNTING_FLAGS.items()` in insertion order (ascending bit
value), collects the description of every bit set in the mask, joins with
`", "`. -/

/-- `_ACCOUNTING_FLAGS`, in the insertion (table) order of the source dict. -/
def ACCOUNTING_FLAGS : List (Nat × String) :=
  [(0x001, "fork but not exec"),
   (0x004, "system call or stack mapping violation"),
   (0x008, "dumped core"),
   (0x010, "killed by a signal"),
   (0x020, "killed due to pledge violation"),
   (0x040, "memory access violation"),
   (0x080, "unveil access violation"),
   (0x200, "killed by syscall pin violation"),
   (0x400, "BT CFI violation")]

/-- Embedding of `_ParseStructFlags`. -/
def ParseStructFlags (flags_value : Nat) : String :=
  String.intercalate ", "
    ((ACCOUNTING_FLAGS.filter (fun p => flags_value &&& p.1 != 0)).map Prod.snd)

/-! ## Timestamp reconstruction

`datetime.datetime.utcfromtimestamp(starting_time).isoformat() + 'Z'`:
the 8-byte unsigned seconds-since-epoch value is decomposed into a proleptic
Gregorian UTC date and a time of day with no timezone offset; `isoformat`
with zero microseconds renders `YYYY-MM-DDTHH:MM:SS`.  The civil-date
decomposition below is the standard era-based Gregorian algorithm, the one
fixed by the POSIX epoch mapping that `utcfromtimestamp` implements.
`utcfromtimestamp` accepts values up to 9999-12-31T23:59:59, that is
253402300799 seconds; beyond that it raises, which the record decoder
surfaces as `ParseError.timestampRange`. -/

/-- Largest epoch value `datetime.datetime.utcfromtimestamp` accepts
(9999-12-31T23:59:59 UTC). -/
def maxTimestamp : Nat := 253402300799

/-- Gregorian `(year, month, day)` of a day count since 1970-01-01. -/
def civilFromDays (z : Nat) : Nat × Nat × Nat :=
  let z' := z + 719468
  let era := z' / 146097
  let doe := z' % 146097
  let yoe := (doe - doe / 1460 + doe / 36524 - doe / 146096) / 365
  let y := yoe + era * 400
  let doy := doe - (365 * yoe + yoe / 4 - yoe / 100)
  let mp := (5 * doy + 2) / 153
  let d := doy - (153 * mp + 2) / 5 + 1
  let m := if mp < 10 then mp + 3 else mp - 9
  (if mp < 10 then y else y + 1, m, d)

/-- Two zero-padded decimal digits (values below 100 render faithfully). -/
def pad2c (n : Nat) : List Char := [digitChar (n / 10), digitChar n]

/-- Four zero-padded decimal digits (values below 10000 render faithfully;
`utcfromtimestamp` years lie in 1970..9999). -/
def pad4c (n : Nat) : List Char :=
  [digitChar (n / 1000), digitChar (n / 100), digitChar (n / 10), digitChar n]

/-- The characters of `datetime.utcfromtimestamp(t).isoformat()` for a whole
in-range number of seconds `t`. -/
def isoChars (t : Nat) : List Char :=
  let secs := t % 86400
  let ymd := civilFromDays (t / 86400)
  pad4c ymd.1 ++ ['-'] ++ pad2c ymd.2.1 ++ ['-'] ++ pad2c ymd.2.2 ++ ['T'] ++
    pad2c (secs / 3600) ++ [':'] ++ pad2c (secs % 3600 / 60) ++ [':'] ++
    pad2c (secs % 60)

/-- Embedding of `datetime.datetime.utcfromtimestamp(t).isoformat() + 'Z'`. -/
def startingTimeString (t : Nat) : String :=
  String.mk (isoChars t) ++ "Z"

/-! ## Record decode and stream loop

The decode loop of `ParseFileObject` (as written, its body also references
names that are not in scope; the embedding gives the written decode logic
its intended referents, the helper methods of the class):
```
while True:
    encoded_data = file.read(_STRUCT_SIZE)
    if not encoded_data:
        break
    decoded_data = struct.unpack(struct_format, encoded_data)
    ...
    parser_mediator.ProduceEventData(event_data)
```
`_STRUCT_FORMAT = '24sHHHHQIIIiII'` has size 64 with no padding: offsets
24s at 0, the four `H` at 24/26/28/30, `Q` at 32, `III` at 40/44/48, `i`
at 52, `II` at 56/60; fields little-endian (native order of the common
OpenBSD targets). `struct.unpack` raises `struct.error` on a buffer whose
length is not exactly 64; `utcfromtimestamp` raises on an out-of-range
seconds value.  Neither exception is caught anywhere in the body, so either
one aborts the whole parse; events already produced stay produced. -/

/-- One parse outcome that escapes the loop. -/
inductive ParseError where
  /-- `errors.WrongParser` raised by the filename gate. -/
  | wrongParser
  /-- `struct.error` from `struct.unpack` on a buffer that is not 64 bytes. -/
  | structError
  /-- the exception from `utcfromtimestamp` on an out-of-range value. -/
  | timestampRange
deriving DecidableEq

/-- The event data container, with the decoded field values the loop body
assigns (names as in `OpenBSDSystemAccountingEventData`). -/
structure EventData where
  command_name : String
  user_time : String
  system_time : String
  elapsed_time : String
  count_io_blocks : ℚ
  starting_time : String
  uid : Nat
  gid : Nat
  average_memory_usage : Nat
  tty : Int
  pid : Nat
  flags : String
deriving DecidableEq

/-- Little-endian value of a byte list. -/
def leNat (bytes : List Nat) : Nat :=
  bytes.foldr (fun b acc => b + 256 * acc) 0

/-- The bytes of `command_name` before the first NUL
(`command_name.split(b'\x00')[0]`). -/
def takeUntilNul : List Nat → List Nat
  | [] => []
  | b :: bs => if b = 0 then [] else b :: takeUntilNul bs

/-- `.decode('iso-8859-1')`: each byte is its own code point. -/
def latin1 (bytes : List Nat) : String :=
  String.mk (bytes.map Char.ofNat)

/-- Signed 32-bit reinterpretation of the `i` field (`controlling_tty`). -/
def toInt32 (u : Nat) : Int :=
  if u < 2147483648 then (u : Int) else (u : Int) - 4294967296

/-- Decode of one 64-byte chunk: `struct.unpack` of `'24sHHHHQIIIiII'`
followed by the per-field conversions of the loop body.  A chunk that is
not exactly 64 bytes raises `struct.error`; a `starting_time` beyond
`maxTimestamp` raises inside `utcfromtimestamp`. -/
def decodeRecord (chunk : List Nat) : Except ParseError EventData :=
  if chunk.length ≠ 64 then .error .structError
  else
    let field16 := fun o => leNat ((chunk.drop o).take 2)
    let field32 := fun o => leNat ((chunk.drop o).take 4)
    let st := leNat ((chunk.drop 32).take 8)
    if maxTimestamp < st then .error .timestampRange
    else .ok
      { command_name := latin1 (takeUntilNul (chunk.take 24))
        user_time := TimeConverstion (Convert_comp_t (field16 24))
        system_time := TimeConverstion (Convert_comp_t (field16 26))
        elapsed_time := TimeConverstion (Convert_comp_t (field16 28))
        count_io_blocks := Convert_comp_t (field16 30)
        starting_time := startingTimeString st
        uid := field32 40
        gid := field32 44
        average_memory_usage := field32 48
        tty := toInt32 (field32 52)
        pid := field32 56
        flags := ParseStructFlags (field32 60) }

/-- The read loop, by recursion on the number of full 64-byte chunks still
ahead of the cursor (`n` is invoked as `data.length / 64`).  Returns the
events produced (in order) and the exception, if any, that aborted the
loop; `none` means the loop ended by reading zero bytes. When the fuel is
out but bytes remain, those are the trailing partial record: the loop reads
them and `struct.unpack` raises `struct.error`. -/
def parseLoopN : Nat → List Nat → List EventData × Option ParseError
  | _, [] => ([], none)
  | 0, _ :: _ => ([], some .structError)
  | n + 1, data =>
    match decodeRecord (data.take 64) with
    | .error e => ([], some e)
    | .ok ev =>
      let r := parseLoopN n (data.drop 64)
      (ev :: r.1, r.2)

/-- Embedding of `ParseFileObject`: the filename gate
(`raise errors.WrongParser` when `_FILENAME_FORMAT.match` fails), then the
read loop over the stream bytes.  Result: events produced, and the
exception that escaped, if any. -/
def ParseFileObject (filename : String) (data : List Nat) :
    List EventData × Option ParseError :=
  if regexMatch filename = false then ([], some .wrongParser)
  else parseLoopN (data.length / 64) data

/-! ## The iteration of the loop as a labelled transition system

For the determinism property, the loop is also rendered as a step relation
on its state, which is exactly the read cursor plus the sequence of events
already handed to the mediator: one step reads the next full chunk, decodes
it and emits the event.  A state from which no step exists is terminal
(end of data, short trailing chunk, or a decode exception). -/

/-- One iteration of the read loop on state (cursor, emitted events). -/
inductive IterStep (data : List Nat) :
    Nat × List EventData → Nat × List EventData → Prop where
  | emit (c : Nat) (evs : List EventData) (ev : EventData)
      (hlen : c + 64 ≤ data.length)
      (hdec : decodeRecord ((data.drop c).take 64) = .ok ev) :
      IterStep data (c, evs) (c + 64, evs ++ [ev])

/-- Finitely many iterations. -/
inductive IterRun (data : List Nat) :
    Nat × List EventData → Nat × List EventData → Prop where
  | refl (s : Nat × List EventData) : IterRun data s s
  | step {s t u : Nat × List EventData} :
      IterStep data s t → IterRun data t u → IterRun data s u

/-- A state from which the loop makes no further step. -/
def IterDone (data : List Nat) (s : Nat × List EventData) : Prop :=
  ∀ t, ¬ IterStep data s t

/-! ## Helper lemmas -/

/-- The shift loop multiplies the mantissa by `8 ^ exponent`. -/
theorem compShiftLoop_eq (e : Nat) : ∀ m, compShiftLoop e m = m * 8 ^ e := by
  induction e with
  | zero => intro m; simp [compShiftLoop]
  | succ e ih =>
    intro m
    show compShiftLoop e (m <<< 3) = m * 8 ^ (e + 1)
    rw [ih, Nat.shiftLeft_eq, pow_succ]
    ring

/-- With fuel at least the counter, the fuelled loop completes and agrees
with the recursive rendering of the loop. -/
theorem compLoopFuel_complete (f : Nat) :
    ∀ c m, c ≤ f → compLoopFuel f c m = some (compShiftLoop c m) := by
  induction f with
  | zero =>
    intro c m hc
    interval_cases c
    simp [compLoopFuel, compShiftLoop]
  | succ f ih =>
    intro c m hc
    match c with
    | 0 => simp [compLoopFuel, compShiftLoop]
    | c + 1 =>
      show compLoopFuel (f + 1) (c + 1) m = _
      rw [compLoopFuel]
      simp only [Nat.succ_ne_zero, if_false]
      show compLoopFuel f c (m <<< 3) = some (compShiftLoop (c + 1) m)
      rw [ih c (m <<< 3) (Nat.lt_succ_iff.mp hc)]
      rfl

/- The Batteries rational arithmetic operations are marked irreducible,
which blocks kernel evaluation of the embedded float computations; restore
the default transparency inside this file so that concrete runs of the
decoder reduce. -/
attribute [local semireducible] Rat.mul Rat.add Rat.sub Rat.inv

/-! ## Claims -/

/-- C1: the spec says the filename gate accepts exactly `acct` and
`acct.<suffix>` and rejects everything else, in particular `acct2`.  The
gate as coded calls `re.match`, which anchors at the start of the string
only, and the rotation group of the pattern is optional, so every filename
that merely begins with `acct` is accepted: `acct`, `acct.0`, `acct.3`
proceed and `account`, `backup.acct` are rejected as the spec says, but
`acct2` is also accepted and parsing proceeds, against the spec and
against the comment in the source that the pattern is meant to match the
default file and its rotations only. -/
theorem C1_filename_gate_accepts_acct2 :
    regexMatch "acct" = true ∧
    regexMatch "acct.0" = true ∧
    regexMatch "acct.3" = true ∧
    regexMatch "account" = false ∧
    regexMatch "backup.acct" = false ∧
    regexMatch "acct2" = true ∧
    (ParseFileObject "acct2" []).2 ≠ some ParseError.wrongParser ∧
    (ParseFileObject "account" []).2 = some ParseError.wrongParser := by
  decide

/-- C2: for every 16-bit input, `_Convert_comp_t` returns exactly
`((raw &&& 0x1fff) <<< (3 * (raw >>> 13))) / 64`: the shift loop acts on
the integer mantissa and the division by the tick rate 64 happens only at
the end; the integer numerator stays below `2 ^ 53`, so the Python float
result carries no mantissa rounding error; input 0 gives 0 and a zero
exponent gives `mantissa / 64`. -/
theorem C2_Convert_comp_t_exact (raw : Nat) (h : raw < 65536) :
    Convert_comp_t raw = (((raw &&& 0x1fff) <<< (3 * (raw >>> 13)) : Nat) : ℚ) / 64 ∧
    ((raw &&& 0x1fff) <<< (3 * (raw >>> 13)) : Nat) < 2 ^ 53 ∧
    Convert_comp_t 0 = 0 ∧
    (raw >>> 13 = 0 → Convert_comp_t raw = ((raw &&& 0x1fff : Nat) : ℚ) / 64) := by
  have hmant : raw &&& 0x1fff < 8192 := by
    have := Nat.and_le_right (n := raw) (m := 0x1fff)
    omega
  have hexp : raw >>> 13 < 8 := by
    rw [Nat.shiftRight_eq_div_pow]
    omega
  have hmain :
      Convert_comp_t raw = (((raw &&& 0x1fff) <<< (3 * (raw >>> 13)) : Nat) : ℚ) / 64 := by
    unfold Convert_comp_t AHZ
    rw [compShiftLoop_eq, Nat.shiftLeft_eq, pow_mul]
    norm_num
  refine ⟨hmain, ?_, by decide, ?_⟩
  · rw [Nat.shiftLeft_eq]
    calc (raw &&& 0x1fff) * 2 ^ (3 * (raw >>> 13))
        ≤ 8191 * 2 ^ 21 :=
          Nat.mul_le_mul (by omega) (Nat.pow_le_pow_right (by norm_num) (by omega))
      _ < 2 ^ 53 := by norm_num
  · intro h0
    rw [hmain, h0]
    simp

/-- C2 witness: concrete instance at raw `0x2005` (exponent 1, mantissa 5). -/
theorem C2_Convert_comp_t_exact_witness :
    (0x2005 < 65536) ∧
    (Convert_comp_t 0x2005 =
        (((0x2005 &&& 0x1fff) <<< (3 * (0x2005 >>> 13)) : Nat) : ℚ) / 64 ∧
      ((0x2005 &&& 0x1fff) <<< (3 * (0x2005 >>> 13)) : Nat) < 2 ^ 53 ∧
      Convert_comp_t 0 = 0 ∧
      (0x2005 >>> 13 = 0 → Convert_comp_t 0x2005 = ((0x2005 &&& 0x1fff : Nat) : ℚ) / 64)) :=
  ⟨by decide, C2_Convert_comp_t_exact 0x2005 (by decide)⟩

/-- C3: the spec says `_TimeConverstion` computes
`hours = floor(total / 3600)` and `minutes = floor((total mod 3600) / 60)`.
The code instead formats the float quotients with `:02.0f`, which rounds
to the nearest integer (half to even), so at `total = 3599` the code
produces `"01:60:59.00"` while the floor semantics of the spec gives hours
0, minutes 59, seconds 59, that is `"00:59:59.00"`. -/
theorem C3_TimeConverstion_rounds_not_floors :
    TimeConverstion 3599 = "01:60:59.00" ∧
    Rat.floor ((3599 : ℚ) / (SECSPERHOUR : ℚ)) = 0 ∧
    Rat.floor (fmod (3599 : ℚ) (SECSPERHOUR : ℚ) / (SECSPERMIN : ℚ)) = 59 ∧
    fmod (3599 : ℚ) (SECSPERMIN : ℚ) = 59 ∧
    TimeConverstion 0 = "00:00:00.00" ∧
    TimeConverstion (7323 / 2) = "01:01:01.50" := by
  decide

/-- C10: the while loop of `_Convert_comp_t` terminates for every 16-bit
input: the counter starts at `raw >>> 13 ≤ 7` and decreases by one each
iteration, so 7 units of fuel always suffice and the fuelled rendering of
the loop completes with the value of the total function. -/
theorem C10_comp_loop_terminates (raw : Nat) (h : raw < 65536) :
    raw >>> 13 ≤ 7 ∧
    compLoopFuel 7 (raw >>> 13) (raw &&& 0x1fff) =
      some (compShiftLoop (raw >>> 13) (raw &&& 0x1fff)) := by
  have hexp : raw >>> 13 < 8 := by
    rw [Nat.shiftRight_eq_div_pow]
    omega
  exact ⟨by omega, compLoopFuel_complete 7 _ _ (by omega)⟩

/-- C10 witness: concrete instance at the largest 16-bit input. -/
theorem C10_comp_loop_terminates_witness :
    (65535 < 65536) ∧
    (65535 >>> 13 ≤ 7 ∧
      compLoopFuel 7 (65535 >>> 13) (65535 &&& 0x1fff) =
        some (compShiftLoop (65535 >>> 13) (65535 &&& 0x1fff))) :=
  ⟨by decide, C10_comp_loop_terminates 65535 (by decide)⟩

set_option maxRecDepth 400000 in
/-- C4: the spec says trailing residual bytes produce exactly one
recoverable TruncatedRecord warning and are never interpreted as a record.
The loop as written has no such warning path: it reads the 1 trailing byte
of a 65-byte stream and hands it to `struct.unpack`, whose `struct.error`
escapes uncaught and aborts the parse — the `floor(65 / 64) = 1` full
record was produced before that, and a stream of exactly 2 times 64 bytes
ends cleanly with 2 records and no exception. -/
theorem C4_trailing_bytes_raise_not_warn :
    (ParseFileObject "acct" (List.replicate 64 0 ++ [0])).1.length = 1 ∧
    (ParseFileObject "acct" (List.replicate 64 0 ++ [0])).2 = some ParseError.structError ∧
    (ParseFileObject "acct" (List.replicate 128 0)).1.length = 2 ∧
    (ParseFileObject "acct" (List.replicate 128 0)).2 = none := by
  decide

/-- C5: the spec says a stream shorter than one 64-byte record is rejected
softly (TooSmall, wrong-format-adjacent) before decoding.  The source
declares `_MINIMUM_FILE_SIZE = 64` but never consults it: a 10-byte stream
is read and passed to `struct.unpack`, whose `struct.error` escapes as a
crash rather than a soft rejection, and an empty stream is accepted
silently with no events and no rejection at all. -/
theorem C5_minimum_size_never_checked :
    ParseFileObject "acct" (List.replicate 10 0) = ([], some ParseError.structError) ∧
    (ParseFileObject "acct" (List.replicate 10 0)).2 ≠ some ParseError.wrongParser ∧
    ParseFileObject "acct" [] = ([], none) ∧
    MINIMUM_FILE_SIZE = 64 := by
  decide

set_option maxRecDepth 400000 in
/-- C6: the spec says a record whose `starting_time` is outside the
representable date range yields a per-record warning while decoding
continues with the next record.  The loop body has no per-record error
handling: on a 128-byte stream whose first record carries the out-of-range
seconds value `2 ^ 64 - 1` the exception from `utcfromtimestamp` aborts
the whole parse — no event is produced at all, not even for the second,
perfectly valid record, and no warning is recorded anywhere — although
that second record decodes fine on its own. -/
theorem C6_bad_timestamp_aborts_whole_stream :
    ParseFileObject "acct"
        ((List.replicate 32 0 ++ List.replicate 8 255 ++ List.replicate 24 0) ++
          List.replicate 64 0) =
      ([], some ParseError.timestampRange) ∧
    (ParseFileObject "acct" (List.replicate 64 0)).1.length = 1 ∧
    (ParseFileObject "acct" (List.replicate 64 0)).2 = none := by
  decide

/-- Spec-side rendering of the flag table: the bit positions of the nine
documented flags (ascending) with their descriptions, for the refinement
statement that the translator returns the descriptions of the set bits. -/
def flagsSpecTable : List (Nat × String) :=
  [(0, "fork but not exec"),
   (2, "system call or stack mapping violation"),
   (3, "dumped core"),
   (4, "killed by a signal"),
   (5, "killed due to pledge violation"),
   (6, "memory access violation"),
   (7, "unveil access violation"),
   (9, "killed by syscall pin violation"),
   (10, "BT CFI violation")]

/-- Modelled from the spec words for the flag translator: the descriptions
of the set bits among the documented ones, joined with a comma and space in
ascending bit order. -/
def flagsSpec (mask : Nat) : String :=
  String.intercalate ", "
    ((flagsSpecTable.filter (fun kd => mask.testBit kd.1)).map Prod.snd)

/-- Testing a mask against a power of two is testing the bit. -/
theorem and_bit_ne (k m : Nat) : (m &&& 2 ^ k != 0) = m.testBit k := by
  rcases h : m.testBit k with hf | ht
  · simp [Nat.and_two_pow, h]
  · simp [Nat.and_two_pow, h, Nat.pow_eq_zero]

/-- The coded translator agrees with the spec-side set-bits rendering. -/
theorem ParseStructFlags_eq_spec (mask : Nat) : ParseStructFlags mask = flagsSpec mask := by
  have e0 : (mask &&& 1 != 0) = mask.testBit 0 := by
    rw [show (1 : Nat) = 2 ^ 0 by norm_num]; exact and_bit_ne 0 mask
  have e2 : (mask &&& 4 != 0) = mask.testBit 2 := by
    rw [show (4 : Nat) = 2 ^ 2 by norm_num]; exact and_bit_ne 2 mask
  have e3 : (mask &&& 8 != 0) = mask.testBit 3 := by
    rw [show (8 : Nat) = 2 ^ 3 by norm_num]; exact and_bit_ne 3 mask
  have e4 : (mask &&& 16 != 0) = mask.testBit 4 := by
    rw [show (16 : Nat) = 2 ^ 4 by norm_num]; exact and_bit_ne 4 mask
  have e5 : (mask &&& 32 != 0) = mask.testBit 5 := by
    rw [show (32 : Nat) = 2 ^ 5 by norm_num]; exact and_bit_ne 5 mask
  have e6 : (mask &&& 64 != 0) = mask.testBit 6 := by
    rw [show (64 : Nat) = 2 ^ 6 by norm_num]; exact and_bit_ne 6 mask
  have e7 : (mask &&& 128 != 0) = mask.testBit 7 := by
    rw [show (128 : Nat) = 2 ^ 7 by norm_num]; exact and_bit_ne 7 mask
  have e9 : (mask &&& 512 != 0) = mask.testBit 9 := by
    rw [show (512 : Nat) = 2 ^ 9 by norm_num]; exact and_bit_ne 9 mask
  have e10 : (mask &&& 1024 != 0) = mask.testBit 10 := by
    rw [show (1024 : Nat) = 2 ^ 10 by norm_num]; exact and_bit_ne 10 mask
  simp only [ParseStructFlags, flagsSpec, ACCOUNTING_FLAGS, flagsSpecTable,
    List.filter_cons, List.filter_nil, e0, e2, e3, e4, e5, e6, e7, e9, e10,
    apply_ite (List.map (Prod.snd : Nat × String → String)), List.map_cons, List.map_nil]

/-- Bits outside the nine documented flag values (mask `0x6FD = 1789`) do
not influence the spec-side rendering. -/
theorem flagsSpec_mask_irrelevant (mask : Nat) :
    flagsSpec (mask &&& 1789) = flagsSpec mask := by
  simp only [flagsSpec, flagsSpecTable, List.filter_cons, List.filter_nil, Nat.testBit_and,
    (show Nat.testBit 1789 0 = true by decide), (show Nat.testBit 1789 2 = true by decide),
    (show Nat.testBit 1789 3 = true by decide), (show Nat.testBit 1789 4 = true by decide),
    (show Nat.testBit 1789 5 = true by decide), (show Nat.testBit 1789 6 = true by decide),
    (show Nat.testBit 1789 7 = true by decide), (show Nat.testBit 1789 9 = true by decide),
    (show Nat.testBit 1789 10 = true by decide), Bool.and_true]

/-- C7: for every flags mask, `_ParseStructFlags` returns the descriptions
of the set bits among the nine documented flag values joined with a comma
and space in ascending table order; all other bits are ignored (masking
with `0x6FD`, the union of the documented bits, changes nothing); the
empty mask gives the empty string and mask `0x009` gives the two
descriptions of bits `0x001` and `0x008` in table order. -/
theorem C7_ParseStructFlags_spec (mask : Nat) :
    ParseStructFlags mask = flagsSpec mask ∧
    ParseStructFlags (mask &&& 0x6FD) = ParseStructFlags mask ∧
    ParseStructFlags 0 = "" ∧
    ParseStructFlags 9 = "fork but not exec, dumped core" := by
  refine ⟨ParseStructFlags_eq_spec mask, ?_, by decide, by decide⟩
  rw [ParseStructFlags_eq_spec, ParseStructFlags_eq_spec]
  exact flagsSpec_mask_irrelevant mask

/-- A digit character is never the decimal point. -/
theorem digitChar_ne_dot (n : Nat) : digitChar n ≠ '.' := by
  have h : n % 10 < 10 := Nat.mod_lt _ (by norm_num)
  unfold digitChar
  set m := n % 10 with hm
  interval_cases m <;> decide

/-- The characters of the reconstructed timestamp: the ISO characters
followed by the literal suffix. -/
theorem startingTime_data (t : Nat) :
    (startingTimeString t).data = isoChars t ++ ['Z'] := by
  simp [startingTimeString, String.data_append]

/-- The reconstructed timestamp always has the 20 characters of
`YYYY-MM-DDTHH:MM:SSZ`. -/
theorem startingTime_length (t : Nat) : (startingTimeString t).length = 20 := by
  show (startingTimeString t).data.length = 20
  rw [startingTime_data]
  simp [isoChars, pad2c, pad4c]

/-- The reconstructed timestamp ends in the literal suffix. -/
theorem startingTime_last (t : Nat) :
    (startingTimeString t).data.getLast? = some 'Z' := by
  rw [startingTime_data]
  simp

/-- The reconstructed timestamp carries no decimal point: second precision,
no fractional component. -/
theorem startingTime_no_dot (t : Nat) : '.' ∉ (startingTimeString t).data := by
  rw [startingTime_data]
  intro hmem
  have hd : ∀ n : Nat, ('.' = digitChar n) = False :=
    fun n => eq_false fun h => digitChar_ne_dot n h.symm
  simp [isoChars, pad2c, pad4c, List.mem_append, hd] at hmem

/-- The time-of-day part of the reconstructed timestamp is the plain
base-60 decomposition of `t mod 86400`: no timezone offset is applied. -/
theorem startingTime_timeOfDay (t : Nat) :
    (startingTimeString t).data.drop 11 =
      pad2c (t % 86400 / 3600) ++ [':'] ++ pad2c (t % 86400 % 3600 / 60) ++ [':'] ++
        pad2c (t % 86400 % 60) ++ ['Z'] := by
  rw [startingTime_data]
  simp [isoChars, pad2c, pad4c]

/-- C8: for every in-range starting_time value the reconstructor produces
an ISO-8601 string with a literal Z suffix, 20 characters (second
precision), no decimal point (no fractional component), and a time of day
that is the direct base-60 decomposition of the seconds within the day
(no timezone conversion); the epoch value 1713763086 decodes to exactly
the string of the repository test. -/
theorem C8_starting_time_iso8601 (t : Nat) (h : t ≤ maxTimestamp) :
    startingTimeString 1713763086 = "2024-04-22T05:18:06Z" ∧
    (startingTimeString t).length = 20 ∧
    (startingTimeString t).data.getLast? = some 'Z' ∧
    '.' ∉ (startingTimeString t).data ∧
    (startingTimeString t).data.drop 11 =
      pad2c (t % 86400 / 3600) ++ [':'] ++ pad2c (t % 86400 % 3600 / 60) ++ [':'] ++
        pad2c (t % 86400 % 60) ++ ['Z'] :=
  ⟨by decide, startingTime_length t, startingTime_last t, startingTime_no_dot t,
    startingTime_timeOfDay t⟩

/-- C8 witness: concrete instance at the epoch value of the repository
test record. -/
theorem C8_starting_time_iso8601_witness :
    (1713763086 ≤ maxTimestamp) ∧
    (startingTimeString 1713763086 = "2024-04-22T05:18:06Z" ∧
      (startingTimeString 1713763086).length = 20 ∧
      (startingTimeString 1713763086).data.getLast? = some 'Z' ∧
      '.' ∉ (startingTimeString 1713763086).data ∧
      (startingTimeString 1713763086).data.drop 11 =
        pad2c (1713763086 % 86400 / 3600) ++ [':'] ++
          pad2c (1713763086 % 86400 % 3600 / 60) ++ [':'] ++
          pad2c (1713763086 % 86400 % 60) ++ ['Z']) :=
  ⟨by decide, C8_starting_time_iso8601 1713763086 (by decide)⟩

/-- One loop iteration from a given state is unique: the chunk at the
cursor is fixed by the data, and the decode of a chunk is a function. -/
theorem iterStep_det {data : List Nat} {s t u : Nat × List EventData}
    (h1 : IterStep data s t) (h2 : IterStep data s u) : t = u := by
  cases h1 with
  | emit c evs ev hlen hdec =>
    cases h2 with
    | emit _ _ ev2 hlen2 hdec2 =>
      rw [hdec] at hdec2
      cases hdec2
      rfl

/-- C9: decoding is deterministic across runs.  The loop state is exactly
the read cursor plus the events already emitted; any two complete runs of
the iteration from the same state over the same bytes end in the same
state, in particular with identical emitted event sequences in identical
order. -/
theorem C9_iteration_deterministic (data : List Nat) (s t u : Nat × List EventData)
    (h1 : IterRun data s t) (h2 : IterRun data s u)
    (ht : IterDone data t) (hu : IterDone data u) : t = u := by
  induction h1 generalizing u with
  | refl s =>
    cases h2 with
    | refl _ => rfl
    | step hst _ => exact absurd hst (ht _)
  | step hst hrun ih =>
    cases h2 with
    | refl _ => exact absurd hst (hu _)
    | step hst2 hrun2 =>
      rw [← iterStep_det hst hst2] at hrun2
      exact ih u hrun2 ht hu

/-- C9 witness: on the empty stream, the initial state is itself the
unique complete state of the iteration. -/
theorem C9_iteration_deterministic_witness :
    IterRun [] (0, []) (0, []) ∧ IterDone [] (0, []) ∧
    ((0, ([] : List EventData)) = (0, [])) := by
  have hdone : IterDone [] (0, ([] : List EventData)) := by
    intro t h
    cases h with
    | emit c evs ev hlen hdec => simp at hlen
  exact ⟨IterRun.refl _, hdone,
    C9_iteration_deterministic [] (0, []) (0, []) (0, [])
      (IterRun.refl _) (IterRun.refl _) hdone hdone⟩

end SystemAccounting
